import Mathlib

/-!
Shallow embedding of the payment backend in src/server.py: the Local Store
(sqlite tables `customers` and `payments`), the identity reconciler
(`create_or_get_customer`), the checkout-session route, the webhook handler,
and the admin charge/subscription routes.  Remote-processor calls are passed
in as explicit inputs (the id a creation call returns, the result of a
retrieve, whether an exception was thrown), and each operation returns the
updated store together with the observable request/response data.
-/

namespace TeslaCheckout

/-- Python truthiness of an optional string: `None` and `""` are falsy. -/
def truthy : Option String → Bool
  | none => false
  | some s => !s.isEmpty

/-- A row of the `customers` table (`init_db`): `internal_id` and
`stripe_customer_id` carry UNIQUE constraints; `email` does not. -/
structure CustomerRow where
  internal_id : String
  email : Option String
  stripe_customer_id : String
deriving Repr, DecidableEq

/-- A row of the `payments` table (`init_db`). -/
structure PaymentRow where
  stripe_pid : String
  customer_id : Option String
  amount : Int
  currency : String
  status : String
deriving Repr, DecidableEq

/-- The Local Store: both tables, each as the list of its rows in insertion
(rowid) order. -/
structure DB where
  customers : List CustomerRow
  payments : List PaymentRow
deriving Repr, DecidableEq

/-- The fields of a remote payment-intent object that the server reads. -/
structure PaymentIntent where
  id : String
  customer : Option String
  amount : Int
  currency : String
  status : String
deriving Repr, DecidableEq

/-- The fields of a remote customer object that the webhook handler reads:
`cust.id`, `cust.email`, and `cust.metadata.get("internal_id", ...)`. -/
structure StripeCustomer where
  id : String
  email : Option String
  metadata_internal_id : Option String
deriving Repr, DecidableEq

/-- A saved payment method as returned by the remote list call. -/
structure PaymentMethod where
  id : String
deriving Repr, DecidableEq

/-- `save_customer_record`: `INSERT OR IGNORE INTO customers ...`.  The two
UNIQUE columns are `internal_id` and `stripe_customer_id`; on a conflict with
either, the insert is silently skipped and the store is unchanged. -/
def save_customer_record (db : DB) (internal_id : String) (email : Option String)
    (stripe_customer_id : String) : DB :=
  if db.customers.any (fun r =>
      r.internal_id == internal_id || r.stripe_customer_id == stripe_customer_id) then
    db
  else
    { db with customers := db.customers ++ [⟨internal_id, email, stripe_customer_id⟩] }

/-- `find_customer_by_email`: `SELECT ... WHERE email = ?` followed by
`fetchone()`, i.e. the first row in rowid order whose email equals the key. -/
def find_customer_by_email (db : DB) (email : String) : Option CustomerRow :=
  db.customers.find? (fun r => r.email == some email)

/-- The payments row that `record_payment` builds from a payment-intent
object: `(pi.id, pi.customer, pi.amount, pi.currency, pi.status)`. -/
def record_payment_row (pi : PaymentIntent) : PaymentRow :=
  ⟨pi.id, pi.customer, pi.amount, pi.currency, pi.status⟩

/-- `record_payment`: a plain `INSERT INTO payments ...` (no conflict
handling), appending one row copied from the payment-intent object. -/
def record_payment (db : DB) (pi : PaymentIntent) : DB :=
  { db with payments := db.payments ++ [record_payment_row pi] }

/-- Result of `create_or_get_customer`: the returned pair, the store after
the call, and how many remote customer-creation calls were made. -/
structure ReconcileResult where
  stripe_customer_id : String
  internal_id : String
  db : DB
  remoteCustomerCreates : Nat
deriving Repr, DecidableEq

/-- `create_or_get_customer(email)`: with a truthy email, look up the store
and reuse a hit; otherwise mint a fresh internal id (`freshId`, the uuid4
value), create a remote customer (which assigns `newCustId`), persist the
mapping with `save_customer_record`, and return the new pair. -/
def create_or_get_customer (db : DB) (email : Option String)
    (freshId newCustId : String) : ReconcileResult :=
  if truthy email then
    match find_customer_by_email db (email.getD "") with
    | some rec => ⟨rec.stripe_customer_id, rec.internal_id, db, 0⟩
    | none =>
      ⟨newCustId, freshId, save_customer_record db freshId email newCustId, 1⟩
  else
    ⟨newCustId, freshId, save_customer_record db freshId email newCustId, 1⟩

/-- The arguments the checkout route passes to `stripe.checkout.Session.create`.
The source call passes no `customer` argument at all, so that parameter of the
remote API is always absent; it is kept here (always `none`) because the
processor-side request is the subject of the session-construction claims. -/
structure SessionParams where
  payment_method_types : List String
  mode : String
  customer : Option String
  customer_email : Option String
  currency : String
  product_name : String
  unit_amount : Int
  quantity : Nat
  setup_future_usage : String
  success_url : String
  cancel_url : String
deriving Repr, DecidableEq

/-- Response of the checkout route. -/
inductive CheckoutResp where
  /-- 400 with body `{"error": "reCAPTCHA verification failed"}`. -/
  | recaptchaFailed
  /-- 200 with body `{"url": ..., "id": ..., "clientSecret": None}`. -/
  | ok (url : String) (id : String) (clientSecret : Option String)
deriving Repr, DecidableEq

/-- Observable outcome of the checkout route: the HTTP response, the request
sent to the remote session-creation call (if reached), the store afterwards,
and the number of remote customer-creation calls performed. -/
structure CheckoutOutcome where
  resp : CheckoutResp
  sessionReq : Option SessionParams
  db : DB
  remoteCustomerCreates : Nat
deriving Repr, DecidableEq

/-- `verify_recaptcha`: returns `True` when no secret is configured, else the
`success` field of the verification service response (`apiSuccess`). -/
def verify_recaptcha (recaptchaSecret : Option String) (apiSuccess : Bool) : Bool :=
  if truthy recaptchaSecret then apiSuccess else true

/-- Body of `create_checkout_session` after the `int(...)` conversion of the
amount: optional reCAPTCHA gate, reconciliation only when `email` is truthy,
then the session-creation request.  `unit_amount` is `amount` clamped at 0,
and `customer_email` is the email only when no customer id was obtained. -/
def create_checkout_session (recaptchaSecret : Option String) (apiSuccess : Bool)
    (db : DB) (amount : Int) (email : Option String) (host : String)
    (freshId newCustId sessUrl sessId : String) : CheckoutOutcome :=
  if truthy recaptchaSecret && !(verify_recaptcha recaptchaSecret apiSuccess) then
    ⟨.recaptchaFailed, none, db, 0⟩
  else
    let step : Option String × DB × Nat :=
      if truthy email then
        let r := create_or_get_customer db email freshId newCustId
        (some r.stripe_customer_id, r.db, r.remoteCustomerCreates)
      else
        (none, db, 0)
    let customer_id := step.1
    let params : SessionParams :=
      { payment_method_types := ["card"]
        mode := "payment"
        customer := none
        customer_email := if truthy customer_id then none else email
        currency := "usd"
        product_name := "Tesla Event Access"
        unit_amount := if amount > 0 then amount else 0
        quantity := 1
        setup_future_usage := "off_session"
        success_url := host ++ "success.html?session_id={CHECKOUT_SESSION_ID}"
        cancel_url := host ++ "cancel.html" }
    ⟨.ok sessUrl sessId none, some params, step.2.1, step.2.2⟩

/-- The event fields the webhook handler reads: `event["type"]` and, on the
checkout-session object, `session.get("payment_intent")` and
`session.get("customer_email")`. -/
structure StripeEvent where
  type : String
  payment_intent : Option String
  customer_email : Option String
deriving Repr, DecidableEq

/-- Response of the webhook route. -/
inductive WebhookResp where
  /-- 400 with body `{"error": str(e)}` when event construction fails. -/
  | badRequest (msg : String)
  /-- 200 with body `{"received": True}`. -/
  | received
  /-- An exception escaped the handler (the payment-intent retrieve is not
  inside any try block). -/
  | uncaught (msg : String)
deriving Repr, DecidableEq

/-- `webhook_received`.  `parse` is the result of
`stripe.Webhook.construct_event` (or of the unverified `request.get_json()`
fallback); `piRetrieve` the result of `stripe.PaymentIntent.retrieve`;
`custRetrieve` the result of `stripe.Customer.retrieve`; `freshUuid` the
uuid4 default used when the customer metadata lacks an internal id.  Only a
`checkout.session.completed` event with a truthy payment-intent reference
does work: it records the fetched payment intent, then tries to persist the
customer mapping, swallowing any failure of that secondary step. -/
def webhook_received (db : DB) (parse : Except String StripeEvent)
    (piRetrieve : Except String PaymentIntent)
    (custRetrieve : Except String StripeCustomer)
    (freshUuid : String) : WebhookResp × DB :=
  match parse with
  | .error e => (.badRequest e, db)
  | .ok ev =>
    if ev.type = "checkout.session.completed" then
      if truthy ev.payment_intent then
        match piRetrieve with
        | .error e => (.uncaught e, db)
        | .ok pi =>
          let db1 := record_payment db pi
          let db2 :=
            if truthy ev.customer_email || truthy pi.customer then
              if truthy pi.customer then
                match custRetrieve with
                | .error _ => db1
                | .ok cust =>
                  save_customer_record db1 (cust.metadata_internal_id.getD freshUuid)
                    cust.email cust.id
              else db1
            else db1
          (.received, db2)
      else (.received, db)
    else (.received, db)

/-- The error an off-session `stripe.PaymentIntent.create` call can raise. -/
inductive ChargeErr where
  /-- `stripe.error.CardError`, carrying its user-facing message. -/
  | cardError (userMessage : String)
  /-- Any other exception, carrying `str(e)`. -/
  | other (msg : String)
deriving Repr, DecidableEq

/-- Response of the admin charge route. -/
inductive AdminChargeResp where
  /-- 400 with body `{"error": "customerId and positive amount required"}`. -/
  | validationError
  /-- 400 with body `{"error": "No saved payment method"}`. -/
  | noSavedPaymentMethod
  /-- 200 with body `{"paymentIntent": pi}`. -/
  | charged (pi : PaymentIntent)
  /-- 402 with body `{"error": "card_error", "message": userMessage}`. -/
  | cardDeclined (userMessage : String)
  /-- 500 with body `{"error": "error", "message": msg}`. -/
  | genericError (msg : String)
deriving Repr, DecidableEq

/-- Observable outcome of the admin charge route: the response, whether a
remote payment-intent creation was attempted, and the store afterwards. -/
structure AdminChargeOutcome where
  resp : AdminChargeResp
  piCreateAttempted : Bool
  db : DB
deriving Repr, DecidableEq

/-- Body of `admin_charge_customer` after the `int(...)` conversion of the
amount (and after `require_admin`): validate customer id and amount, list the
customer card payment methods (`pmList` is what the remote returns), reject
when none exist, else create+confirm the off-session intent (`piCreate` is
that call's result) and record the payment whenever the call did not throw. -/
def admin_charge_customer (db : DB) (customerId : Option String) (amount : Int)
    (currency : String) (pmList : List PaymentMethod)
    (piCreate : Except ChargeErr PaymentIntent) : AdminChargeOutcome :=
  if !truthy customerId || amount ≤ 0 then
    ⟨.validationError, false, db⟩
  else
    match pmList with
    | [] => ⟨.noSavedPaymentMethod, false, db⟩
    | _ :: _ =>
      match piCreate with
      | .ok pi => ⟨.charged pi, true, record_payment db pi⟩
      | .error (.cardError m) => ⟨.cardDeclined m, true, db⟩
      | .error (.other m) => ⟨.genericError m, true, db⟩

/-- Response of the admin subscription route. -/
inductive AdminSubResp where
  /-- 400 with body `{"error": "customerId and priceId required"}`. -/
  | validationError
  /-- 400 with body `{"error": "No saved card payment method"}`. -/
  | noSavedPaymentMethod
  /-- 200 with the created subscription. -/
  | created
  /-- 500 with body `{"error": str(e)}`. -/
  | genericError (msg : String)
deriving Repr, DecidableEq

/-- Body of `admin_create_subscription`: validation, payment-method
precondition, then the remote subscription creation (`subCreate`).  The
handler never touches the Local Store, so the store is returned unchanged on
every path. -/
def admin_create_subscription (db : DB) (customerId priceId : Option String)
    (pmList : List PaymentMethod)
    (subCreate : Except String Unit) : AdminSubResp × DB :=
  if !truthy customerId || !truthy priceId then
    (.validationError, db)
  else
    match pmList with
    | [] => (.noSavedPaymentMethod, db)
    | _ :: _ =>
      match subCreate with
      | .ok _ => (.created, db)
      | .error e => (.genericError e, db)

/-- A JSON value as it appears in a request body field. -/
inductive JsonVal where
  | jnull
  | jbool (b : Bool)
  | jint (n : Int)
  | jstr (s : String)
deriving Repr, DecidableEq

/-- Python `int(...)` applied to a request-body field: ints pass through,
booleans become 0/1, a string must be (after trimming) an optional sign
followed by digits, and anything else raises `ValueError`/`TypeError`
(`none`). -/
def py_int : JsonVal → Option Int
  | .jint n => some n
  | .jbool b => some (if b then 1 else 0)
  | .jnull => none
  | .jstr s =>
    let cs := ((s.data.dropWhile Char.isWhitespace).reverse.dropWhile
      Char.isWhitespace).reverse
    let signed : Bool × List Char :=
      match cs with
      | '-' :: rest => (true, rest)
      | '+' :: rest => (false, rest)
      | rest => (false, rest)
    if !signed.2.isEmpty && signed.2.all Char.isDigit then
      let n : Nat := signed.2.foldl (fun acc d => 10 * acc + (d.toNat - 48)) 0
      some (if signed.1 then -(n : Int) else (n : Int))
    else none

/-- Result of running a route handler: either the handler ran to a response,
or an exception escaped it unhandled. -/
inductive PyResult (α : Type) where
  | ok (a : α)
  | exn (msg : String)
deriving Repr, DecidableEq

/-- The message of the exception `int("abc")` raises. -/
def intValueError : String := "ValueError: invalid literal for int() with base 10"

/-- The checkout route including its parse prefix: the very first statement
after reading the body is `amount = int(data.get("amount", 0))`, so an
unparseable amount raises before the reCAPTCHA check and before any
response is produced. -/
def create_checkout_session_route (recaptchaSecret : Option String)
    (apiSuccess : Bool) (db : DB) (amountField : Option JsonVal)
    (email : Option String) (host : String)
    (freshId newCustId sessUrl sessId : String) : PyResult CheckoutOutcome :=
  match py_int (amountField.getD (.jint 0)) with
  | none => .exn intValueError
  | some a =>
    .ok (create_checkout_session recaptchaSecret apiSuccess db a email host
      freshId newCustId sessUrl sessId)

/-- Result of the admin charge route including auth and parse prefix. -/
inductive AdminRouteResult where
  /-- 401 from `require_admin`. -/
  | unauthorized
  /-- An exception escaped the handler. -/
  | exn (msg : String)
  /-- The handler ran to a response. -/
  | ok (o : AdminChargeOutcome)
deriving Repr, DecidableEq

/-- The admin charge route: `require_admin` first, then
`amount = int(payload.get("amount", 0))` before the
customer-id/amount validation, so an unparseable amount raises before any
validation response. -/
def admin_charge_customer_route (authorized : Bool) (db : DB)
    (customerId : Option String) (amountField : Option JsonVal)
    (currency : Option String) (pmList : List PaymentMethod)
    (piCreate : Except ChargeErr PaymentIntent) : AdminRouteResult :=
  if !authorized then .unauthorized
  else
    match py_int (amountField.getD (.jint 0)) with
    | none => .exn intValueError
    | some a =>
      .ok (admin_charge_customer db customerId a (currency.getD "usd") pmList piCreate)

/-! ## Helper lemmas shared by several claims -/

theorem save_customer_record_payments (db : DB) (i : String) (e : Option String)
    (s : String) : (save_customer_record db i e s).payments = db.payments := by
  unfold save_customer_record
  split <;> rfl

theorem save_customer_record_extends (db : DB) (i : String) (e : Option String)
    (s : String) : ∃ t, (save_customer_record db i e s).customers = db.customers ++ t := by
  unfold save_customer_record
  split
  · exact ⟨[], by simp⟩
  · exact ⟨[⟨i, e, s⟩], rfl⟩

theorem create_or_get_customer_extends (db : DB) (em : Option String)
    (f c : String) :
    ∃ t, (create_or_get_customer db em f c).db.customers = db.customers ++ t := by
  unfold create_or_get_customer
  split
  · split
    · exact ⟨[], by simp⟩
    · exact save_customer_record_extends db f em c
  · exact save_customer_record_extends db f em c

/-- The payments appended and the acknowledgement sent by a successful
`checkout.session.completed` delivery. -/
theorem webhook_completed_payments (db : DB) (ev : StripeEvent) (pi : PaymentIntent)
    (cr : Except String StripeCustomer) (u : String)
    (hty : ev.type = "checkout.session.completed")
    (hpi : truthy ev.payment_intent = true) :
    (webhook_received db (.ok ev) (.ok pi) cr u).1 = .received ∧
    (webhook_received db (.ok ev) (.ok pi) cr u).2.payments =
      db.payments ++ [record_payment_row pi] := by
  unfold webhook_received
  simp only [hty, hpi, if_true, if_pos]
  constructor
  · trivial
  · split
    · split
      · split
        · simp [record_payment]
        · simp [save_customer_record_payments, record_payment]
      · simp [record_payment]
    · simp [record_payment]

theorem truthy_of_ne (e : String) (he : e ≠ "") : truthy (some e) = true := by
  cases hb : e.isEmpty
  · simp [truthy, hb]
  · exact absurd ((String.isEmpty_iff e).mp hb) he

/-! ## Claims -/

/-- C1: reconciling an email absent from the Local Store performs exactly one
remote customer-creation call and appends exactly one mapping (payments
untouched); a second call with the same email returns the identical
`(remote_customer_id, internal_id)` pair with no further remote creation;
and in general a hit returns the stored pair unchanged with no remote
creation.  The freshness hypothesis reflects the collision-free uuid4 /
processor-assigned ids the source relies on. -/
theorem C1_reconcile_create_once_then_reuse
    (db : DB) (e f c : String) (he : e ≠ "")
    (hmiss : find_customer_by_email db e = none)
    (hfresh : ∀ r ∈ db.customers, r.internal_id ≠ f ∧ r.stripe_customer_id ≠ c) :
    create_or_get_customer db (some e) f c =
      ⟨c, f, ⟨db.customers ++ [⟨f, some e, c⟩], db.payments⟩, 1⟩ ∧
    (∀ f2 c2 : String,
      create_or_get_customer ⟨db.customers ++ [⟨f, some e, c⟩], db.payments⟩
          (some e) f2 c2 =
        ⟨c, f, ⟨db.customers ++ [⟨f, some e, c⟩], db.payments⟩, 0⟩) ∧
    (∀ (db2 : DB) (e2 f2 c2 : String) (rec : CustomerRow), e2 ≠ "" →
      find_customer_by_email db2 e2 = some rec →
      create_or_get_customer db2 (some e2) f2 c2 =
        ⟨rec.stripe_customer_id, rec.internal_id, db2, 0⟩) := by
  have htr : truthy (some e) = true := truthy_of_ne e he
  have hany : db.customers.any
      (fun r => r.internal_id == f || r.stripe_customer_id == c) = false := by
    simp only [List.any_eq_false]
    intro r hr
    obtain ⟨h1, h2⟩ := hfresh r hr
    simp [h1, h2]
  refine ⟨?_, ?_, ?_⟩
  · simp [create_or_get_customer, htr, hmiss, save_customer_record, hany]
  · intro f2 c2
    have hfind : find_customer_by_email
        ⟨db.customers ++ [⟨f, some e, c⟩], db.payments⟩ e =
          some ⟨f, some e, c⟩ := by
      unfold find_customer_by_email at hmiss ⊢
      simp only [List.find?_append, hmiss]
      simp
    simp [create_or_get_customer, htr, hfind]
  · intro db2 e2 f2 c2 rec he2 hfind2
    have htr2 : truthy (some e2) = true := truthy_of_ne e2 he2
    simp [create_or_get_customer, htr2, hfind2]

theorem C1_reconcile_create_once_then_reuse_witness :
    create_or_get_customer ⟨[], []⟩ (some "user@example.com") "uuid-1" "cus_1" =
      ⟨"cus_1", "uuid-1", ⟨[⟨"uuid-1", some "user@example.com", "cus_1"⟩], []⟩, 1⟩ :=
  (C1_reconcile_create_once_then_reuse ⟨[], []⟩ "user@example.com" "uuid-1" "cus_1"
    (by decide) rfl (by simp)).1

/-- C2: the claim that the reconciled identity is attached to the
session-creation request is false on the code.  For a concrete checkout
request with a fresh email, reconciliation runs (one remote customer is
created and the mapping stored), yet the request sent to the remote
session-creation call carries no customer parameter and a `None`
customer_email: line 139 nulls `customer_email` exactly when a customer id
was obtained, and no `customer` argument is ever passed. -/
theorem C2_session_request_drops_reconciled_identity :
    (create_checkout_session none true ⟨[], []⟩ 500 (some "user@example.com")
        "http://localhost:4242/" "uuid-1" "cus_1" "https://pay.example/s" "cs_1") =
      ⟨.ok "https://pay.example/s" "cs_1" none,
       some ⟨["card"], "payment", none, none, "usd", "Tesla Event Access", 500, 1,
         "off_session",
         "http://localhost:4242/success.html?session_id={CHECKOUT_SESSION_ID}",
         "http://localhost:4242/cancel.html"⟩,
       ⟨[⟨"uuid-1", some "user@example.com", "cus_1"⟩], []⟩, 1⟩ := by
  decide

/-- C3: every non-positive amount yields the same session-creation request as
amount 0 — a single line item of quantity 1 and unit amount 0 — and the
request is not rejected (assuming the reCAPTCHA gate, which is independent of
the amount, passes). -/
theorem C3_nonpositive_amount_zero_line_item
    (rs : Option String) (api : Bool) (db : DB) (A : Int) (email : Option String)
    (host f c u i : String) (hA : A ≤ 0)
    (hr : truthy rs = true → api = true) :
    create_checkout_session rs api db A email host f c u i =
      create_checkout_session rs api db 0 email host f c u i ∧
    (create_checkout_session rs api db A email host f c u i).sessionReq.map
      SessionParams.unit_amount = some 0 ∧
    (create_checkout_session rs api db A email host f c u i).sessionReq.map
      SessionParams.quantity = some 1 ∧
    (create_checkout_session rs api db A email host f c u i).resp = .ok u i none := by
  have hA' : ¬ (0 < A) := not_lt.mpr hA
  have hcond : (truthy rs && !(verify_recaptcha rs api)) = false := by
    cases htr : truthy rs with
    | false => simp [htr]
    | true => simp [verify_recaptcha, htr, hr htr]
  refine ⟨?_, ?_, ?_, ?_⟩ <;> simp [create_checkout_session, hcond, hA']

theorem C3_nonpositive_amount_zero_line_item_witness :
    create_checkout_session none true ⟨[], []⟩ (-100) none "http://h/"
        "f" "c" "u" "i" =
      create_checkout_session none true ⟨[], []⟩ 0 none "http://h/"
        "f" "c" "u" "i" ∧
    (create_checkout_session none true ⟨[], []⟩ (-100) none "http://h/"
        "f" "c" "u" "i").sessionReq.map SessionParams.unit_amount = some 0 ∧
    (create_checkout_session none true ⟨[], []⟩ (-100) none "http://h/"
        "f" "c" "u" "i").sessionReq.map SessionParams.quantity = some 1 ∧
    (create_checkout_session none true ⟨[], []⟩ (-100) none "http://h/"
        "f" "c" "u" "i").resp = .ok "u" "i" none :=
  C3_nonpositive_amount_zero_line_item none true ⟨[], []⟩ (-100) none "http://h/"
    "f" "c" "u" "i" (by decide) (by decide)

/-- C4: a `checkout.session.completed` webhook whose session carries a
payment-intent reference and whose payment-intent fetch succeeds appends
exactly one payment record, whose stripe_pid, customer, amount, currency and
status are copied verbatim from the fetched payment-intent object, and the
handler acknowledges positively. -/
theorem C4_completed_webhook_records_payment_verbatim
    (db : DB) (ev : StripeEvent) (pi : PaymentIntent)
    (cr : Except String StripeCustomer) (u : String)
    (hty : ev.type = "checkout.session.completed")
    (hpi : truthy ev.payment_intent = true) :
    (webhook_received db (.ok ev) (.ok pi) cr u).1 = .received ∧
    (webhook_received db (.ok ev) (.ok pi) cr u).2.payments =
      db.payments ++ [⟨pi.id, pi.customer, pi.amount, pi.currency, pi.status⟩] :=
  webhook_completed_payments db ev pi cr u hty hpi

theorem C4_completed_webhook_records_payment_verbatim_witness :
    (webhook_received ⟨[], []⟩
        (.ok ⟨"checkout.session.completed", some "pi_1", none⟩)
        (.ok ⟨"pi_1", some "cus_1", 500, "usd", "succeeded"⟩)
        (.ok ⟨"cus_1", some "a@b.c", some "uuid-1"⟩) "uuid-2").1 = .received ∧
    (webhook_received ⟨[], []⟩
        (.ok ⟨"checkout.session.completed", some "pi_1", none⟩)
        (.ok ⟨"pi_1", some "cus_1", 500, "usd", "succeeded"⟩)
        (.ok ⟨"cus_1", some "a@b.c", some "uuid-1"⟩) "uuid-2").2.payments =
      [] ++ [⟨"pi_1", some "cus_1", 500, "usd", "succeeded"⟩] :=
  C4_completed_webhook_records_payment_verbatim ⟨[], []⟩
    ⟨"checkout.session.completed", some "pi_1", none⟩
    ⟨"pi_1", some "cus_1", 500, "usd", "succeeded"⟩
    (.ok ⟨"cus_1", some "a@b.c", some "uuid-1"⟩) "uuid-2" rfl (by decide)

/-- C5: an administrative charge whose off-session intent creation returns
without throwing appends exactly one payment record (whatever the intent
status is — `pi` and in particular `pi.status` are arbitrary here), while a
throwing creation (card decline or any other exception) leaves the store
unchanged. -/
theorem C5_admin_charge_records_iff_create_returns
    (db : DB) (cid : Option String) (amount : Int) (cur : String)
    (pmList : List PaymentMethod) (piCreate : Except ChargeErr PaymentIntent)
    (hc : truthy cid = true) (ha : 0 < amount) (hpm : pmList ≠ []) :
    (∀ pi : PaymentIntent, piCreate = .ok pi →
      admin_charge_customer db cid amount cur pmList piCreate =
        ⟨.charged pi, true,
          ⟨db.customers, db.payments ++ [record_payment_row pi]⟩⟩) ∧
    (∀ err : ChargeErr, piCreate = .error err →
      (admin_charge_customer db cid amount cur pmList piCreate).db = db) := by
  have h0 : ¬ (amount ≤ 0) := not_le.mpr ha
  cases pmList with
  | nil => exact absurd rfl hpm
  | cons pm rest =>
    constructor
    · intro pi hpi
      subst hpi
      simp [admin_charge_customer, hc, h0, record_payment]
    · intro err herr
      subst herr
      cases err <;> simp [admin_charge_customer, hc, h0]

theorem C5_admin_charge_records_iff_create_returns_witness :
    admin_charge_customer ⟨[], []⟩ (some "cus_1") 900 "usd" [⟨"pm_1"⟩]
        (.ok ⟨"pi_1", some "cus_1", 900, "usd", "requires_payment_method"⟩) =
      ⟨.charged ⟨"pi_1", some "cus_1", 900, "usd", "requires_payment_method"⟩, true,
        ⟨[], [⟨"pi_1", some "cus_1", 900, "usd", "requires_payment_method"⟩]⟩⟩ :=
  (C5_admin_charge_records_iff_create_returns ⟨[], []⟩ (some "cus_1") 900 "usd"
      [⟨"pm_1"⟩] (.ok ⟨"pi_1", some "cus_1", 900, "usd", "requires_payment_method"⟩)
      (by decide) (by decide) (by decide)).1
    ⟨"pi_1", some "cus_1", 900, "usd", "requires_payment_method"⟩ rfl

/-- C6: an administrative charge whose card payment-method list comes back
empty is rejected with the no-saved-payment-method error; no payment-intent
creation is attempted and the store is unchanged. -/
theorem C6_admin_charge_no_saved_method_rejected
    (db : DB) (cid : Option String) (amount : Int) (cur : String)
    (piCreate : Except ChargeErr PaymentIntent)
    (hc : truthy cid = true) (ha : 0 < amount) :
    admin_charge_customer db cid amount cur [] piCreate =
      ⟨.noSavedPaymentMethod, false, db⟩ := by
  have h0 : ¬ (amount ≤ 0) := not_le.mpr ha
  simp [admin_charge_customer, hc, h0]

theorem C6_admin_charge_no_saved_method_rejected_witness :
    admin_charge_customer ⟨[⟨"uuid-1", some "a@b.c", "cus_1"⟩], []⟩ (some "cus_1")
        700 "usd" [] (.ok ⟨"pi_1", some "cus_1", 700, "usd", "succeeded"⟩) =
      ⟨.noSavedPaymentMethod, false, ⟨[⟨"uuid-1", some "a@b.c", "cus_1"⟩], []⟩⟩ :=
  C6_admin_charge_no_saved_method_rejected ⟨[⟨"uuid-1", some "a@b.c", "cus_1"⟩], []⟩
    (some "cus_1") 700 "usd" (.ok ⟨"pi_1", some "cus_1", 700, "usd", "succeeded"⟩)
    (by decide) (by decide)

/-- C7: a well-formed webhook event of any type other than
`checkout.session.completed` is acknowledged positively and leaves the Local
Store entirely unchanged. -/
theorem C7_other_event_types_acknowledged_without_writes
    (db : DB) (ev : StripeEvent) (piR : Except String PaymentIntent)
    (cuR : Except String StripeCustomer) (u : String)
    (hty : ev.type ≠ "checkout.session.completed") :
    webhook_received db (.ok ev) piR cuR u = (.received, db) := by
  simp [webhook_received, hty]

theorem C7_other_event_types_acknowledged_without_writes_witness :
    webhook_received ⟨[⟨"uuid-1", some "a@b.c", "cus_1"⟩], []⟩
        (.ok ⟨"invoice.paid", some "pi_1", some "a@b.c"⟩)
        (.ok ⟨"pi_1", some "cus_1", 500, "usd", "succeeded"⟩)
        (.ok ⟨"cus_1", some "a@b.c", some "uuid-1"⟩) "uuid-2" =
      (.received, ⟨[⟨"uuid-1", some "a@b.c", "cus_1"⟩], []⟩) :=
  C7_other_event_types_acknowledged_without_writes
    ⟨[⟨"uuid-1", some "a@b.c", "cus_1"⟩], []⟩
    ⟨"invoice.paid", some "pi_1", some "a@b.c"⟩
    (.ok ⟨"pi_1", some "cus_1", 500, "usd", "succeeded"⟩)
    (.ok ⟨"cus_1", some "a@b.c", some "uuid-1"⟩) "uuid-2" (by decide)

/-- C8: delivering the identical `checkout.session.completed` event twice,
with the payment-intent fetch succeeding both times, appends two payment
records, both carrying the same remote payment id `pi.id` — no
de-duplication of payment records takes place. -/
theorem C8_webhook_redelivery_duplicates_payment_records
    (db : DB) (ev : StripeEvent) (pi : PaymentIntent)
    (cr : Except String StripeCustomer) (u : String)
    (hty : ev.type = "checkout.session.completed")
    (hpi : truthy ev.payment_intent = true) :
    (webhook_received (webhook_received db (.ok ev) (.ok pi) cr u).2
        (.ok ev) (.ok pi) cr u).2.payments =
      db.payments ++ [record_payment_row pi, record_payment_row pi] ∧
    (record_payment_row pi).stripe_pid = pi.id := by
  have h1 := (webhook_completed_payments db ev pi cr u hty hpi).2
  have h2 := (webhook_completed_payments (webhook_received db (.ok ev) (.ok pi) cr u).2
    ev pi cr u hty hpi).2
  rw [h2, h1, List.append_assoc]
  exact ⟨rfl, rfl⟩

theorem C8_webhook_redelivery_duplicates_payment_records_witness :
    (webhook_received (webhook_received ⟨[], []⟩
          (.ok ⟨"checkout.session.completed", some "pi_1", none⟩)
          (.ok ⟨"pi_1", some "cus_1", 500, "usd", "succeeded"⟩)
          (.ok ⟨"cus_1", some "a@b.c", some "uuid-1"⟩) "uuid-2").2
        (.ok ⟨"checkout.session.completed", some "pi_1", none⟩)
        (.ok ⟨"pi_1", some "cus_1", 500, "usd", "succeeded"⟩)
        (.ok ⟨"cus_1", some "a@b.c", some "uuid-1"⟩) "uuid-2").2.payments =
      [] ++ [record_payment_row ⟨"pi_1", some "cus_1", 500, "usd", "succeeded"⟩,
        record_payment_row ⟨"pi_1", some "cus_1", 500, "usd", "succeeded"⟩] ∧
    (record_payment_row ⟨"pi_1", some "cus_1", 500, "usd", "succeeded"⟩).stripe_pid =
      "pi_1" :=
  C8_webhook_redelivery_duplicates_payment_records ⟨[], []⟩
    ⟨"checkout.session.completed", some "pi_1", none⟩
    ⟨"pi_1", some "cus_1", 500, "usd", "succeeded"⟩
    (.ok ⟨"cus_1", some "a@b.c", some "uuid-1"⟩) "uuid-2" rfl (by decide)

theorem create_checkout_session_extends (rs : Option String) (api : Bool)
    (db : DB) (a : Int) (em : Option String) (h f c su si : String) :
    ∃ t, (create_checkout_session rs api db a em h f c su si).db.customers =
      db.customers ++ t := by
  unfold create_checkout_session
  split
  · exact ⟨[], by simp⟩
  · cases hte : truthy em with
    | true => simpa [hte] using create_or_get_customer_extends db em f c
    | false =>
      refine ⟨[], ?_⟩
      simp [hte]

theorem webhook_received_extends (db : DB) (p : Except String StripeEvent)
    (piR : Except String PaymentIntent) (cuR : Except String StripeCustomer)
    (u : String) :
    ∃ t, (webhook_received db p piR cuR u).2.customers = db.customers ++ t := by
  cases p with
  | error e => exact ⟨[], by simp [webhook_received]⟩
  | ok ev =>
    by_cases hty : ev.type = "checkout.session.completed"
    · cases hpi : truthy ev.payment_intent with
      | false => exact ⟨[], by simp [webhook_received, hty, hpi]⟩
      | true =>
        cases piR with
        | error e => exact ⟨[], by simp [webhook_received, hty, hpi]⟩
        | ok pi =>
          cases hcu : (truthy ev.customer_email || truthy pi.customer) with
          | false =>
            exact ⟨[], by simp [webhook_received, hty, hpi, hcu, record_payment]⟩
          | true =>
            cases hpc : truthy pi.customer with
            | false =>
              exact ⟨[], by simp [webhook_received, hty, hpi, hcu, hpc, record_payment]⟩
            | true =>
              cases cuR with
              | error e =>
                exact ⟨[], by simp [webhook_received, hty, hpi, hcu, hpc, record_payment]⟩
              | ok cust =>
                obtain ⟨t, ht⟩ := save_customer_record_extends (record_payment db pi)
                  (cust.metadata_internal_id.getD u) cust.email cust.id
                refine ⟨t, ?_⟩
                simp only [webhook_received, hty, if_true, hpi, hcu, hpc]
                simpa [record_payment] using ht
    · exact ⟨[], by simp [webhook_received, hty]⟩

theorem admin_charge_customer_extends (db : DB) (cid : Option String) (a : Int)
    (cur : String) (pml : List PaymentMethod)
    (piC : Except ChargeErr PaymentIntent) :
    ∃ t, (admin_charge_customer db cid a cur pml piC).db.customers =
      db.customers ++ t := by
  refine ⟨[], ?_⟩
  unfold admin_charge_customer
  split
  · simp
  · split
    · simp
    · split <;> simp [record_payment]

theorem admin_create_subscription_db_unchanged (db : DB) (cid prid : Option String)
    (pml : List PaymentMethod) (subC : Except String Unit) :
    (admin_create_subscription db cid prid pml subC).2 = db := by
  unfold admin_create_subscription
  split
  · rfl
  · split
    · rfl
    · split <;> rfl

/-- C9: customer rows are immutable once created.  An `INSERT OR IGNORE` with
a conflicting internal_id or remote customer id leaves the store exactly
unchanged, and every operation of the system — saving a mapping, identity
reconciliation, checkout creation, the webhook customer-sync, the admin
charge, the admin subscription — only ever appends to the customers table,
leaving all existing rows in place. -/
theorem C9_customer_rows_immutable :
    (∀ (db : DB) (i : String) (e : Option String) (s : String),
      (∃ r ∈ db.customers, r.internal_id = i ∨ r.stripe_customer_id = s) →
      save_customer_record db i e s = db) ∧
    (∀ (db : DB) (i : String) (e : Option String) (s : String),
      ∃ t, (save_customer_record db i e s).customers = db.customers ++ t) ∧
    (∀ (db : DB) (em : Option String) (f c : String),
      ∃ t, (create_or_get_customer db em f c).db.customers = db.customers ++ t) ∧
    (∀ (rs : Option String) (api : Bool) (db : DB) (a : Int) (em : Option String)
        (h f c su si : String),
      ∃ t, (create_checkout_session rs api db a em h f c su si).db.customers =
        db.customers ++ t) ∧
    (∀ (db : DB) (p : Except String StripeEvent) (piR : Except String PaymentIntent)
        (cuR : Except String StripeCustomer) (u : String),
      ∃ t, (webhook_received db p piR cuR u).2.customers = db.customers ++ t) ∧
    (∀ (db : DB) (cid : Option String) (a : Int) (cur : String)
        (pml : List PaymentMethod) (piC : Except ChargeErr PaymentIntent),
      ∃ t, (admin_charge_customer db cid a cur pml piC).db.customers =
        db.customers ++ t) ∧
    (∀ (db : DB) (cid prid : Option String) (pml : List PaymentMethod)
        (subC : Except String Unit),
      (admin_create_subscription db cid prid pml subC).2 = db) := by
  refine ⟨?_, save_customer_record_extends, create_or_get_customer_extends,
    create_checkout_session_extends, webhook_received_extends,
    admin_charge_customer_extends, admin_create_subscription_db_unchanged⟩
  rintro db i e s ⟨r, hr, hor⟩
  have hany : db.customers.any
      (fun x => x.internal_id == i || x.stripe_customer_id == s) = true := by
    rw [List.any_eq_true]
    refine ⟨r, hr, ?_⟩
    cases hor with
    | inl h => simp [h]
    | inr h => simp [h]
  simp [save_customer_record, hany]

theorem C9_customer_rows_immutable_witness :
    save_customer_record ⟨[⟨"uuid-1", some "a@b.c", "cus_1"⟩], []⟩ "uuid-1"
        (some "other@x.y") "cus_2" = ⟨[⟨"uuid-1", some "a@b.c", "cus_1"⟩], []⟩ :=
  C9_customer_rows_immutable.1 ⟨[⟨"uuid-1", some "a@b.c", "cus_1"⟩], []⟩ "uuid-1"
    (some "other@x.y") "cus_2"
    ⟨⟨"uuid-1", some "a@b.c", "cus_1"⟩, by simp, Or.inl rfl⟩

/-- C10: a request body whose amount field is the string "abc" makes both the
checkout route and the (authorized) admin charge route raise an unhandled
ValueError before any response is produced: the `int(...)` conversion is the
first thing each handler does with the body, before the reCAPTCHA check and
before the customer-id/amount validation. -/
theorem C10_unparseable_amount_raises_before_validation :
    py_int (.jstr "abc") = none ∧
    (∀ (rs : Option String) (api : Bool) (db : DB) (email : Option String)
        (host f c su si : String),
      create_checkout_session_route rs api db (some (.jstr "abc")) email host
        f c su si = .exn intValueError) ∧
    (∀ (db : DB) (cid : Option String) (cur : Option String)
        (pml : List PaymentMethod) (piC : Except ChargeErr PaymentIntent),
      admin_charge_customer_route true db cid (some (.jstr "abc")) cur pml piC =
        .exn intValueError) := by
  have hnone : py_int (.jstr "abc") = none := by decide
  refine ⟨hnone, ?_, ?_⟩
  · intro rs api db email host f c su si
    simp [create_checkout_session_route, hnone]
  · intro db cid cur pml piC
    simp [admin_charge_customer_route, hnone]

end TeslaCheckout
